import Mathlib

/-!
# SparksFinance transfer engine — shallow embedding and verification

Shallow embedding of the money-transfer core of the SparksFinance Django
application (finance/models.py and finance/services.py), with theorems
settling the specification claims about it.

Modelling conventions:

* Monetary values (Django DecimalField with two decimal places) are
  represented as integers in minor units (cents).
* Timestamps are natural numbers; the start of the current local day and
  the current instant are explicit parameters.
* Database rows live in an explicit `Store` (lists of account, transaction
  and audit rows); ORM reads and writes become functions on it.
* The services run inside Django db_transaction.atomic. Its semantics are
  modelled explicitly: writes are staged against the store, and a database
  error raised by any Model.save / objects.create marks the connection as
  needing rollback (Django wraps every save in
  transaction.atomic(savepoint=False) / mark_for_rollback_on_error). While
  the flag is set, any further query raises TransactionManagementError, and
  on exit the atomic block rolls every staged write back; otherwise the
  block commits (and a commit-time database fault is raised to the caller
  by the atomic wrapper itself, outside the function body).
* Injected database faults are explicit boolean parameters, one per ORM
  write performed by transfer_money and the audit logger.
* Nondeterministic inputs (generated ids, timestamps, random suffixes) are
  explicit parameters.
-/

namespace SparksFinance

/-- Transaction.STATUS_CHOICES from finance/models.py. -/
inductive TxStatus where
  | pending
  | completed
  | failed
  | cancelled
deriving DecidableEq

/-- A finance.models.BankAccount row (the fields the transfer engine reads
or writes; money in minor units). -/
structure BankAccount where
  pk : Nat
  userPk : Nat
  accountNumber : String
  balance : Int
  isActive : Bool
  dailyTransferLimit : Int
deriving DecidableEq

/-- A finance.models.Transaction row. -/
structure Transaction where
  pk : Nat
  transactionId : String
  senderPk : Nat
  receiverPk : Nat
  amount : Int
  description : String
  status : TxStatus
  createdAt : Nat
  completedAt : Option Nat
  failureReason : Option String
  senderBalanceBefore : Option Int
  senderBalanceAfter : Option Int
  receiverBalanceBefore : Option Int
  receiverBalanceAfter : Option Int
deriving DecidableEq

/-- A finance.models.AuditLog row. -/
structure AuditLog where
  pk : Nat
  userPk : Option Nat
  action : String
  description : String
  ipAddress : Option String
  userAgent : Option String
  relatedTransactionPk : Option Nat
  relatedAccountPk : Option Nat
deriving DecidableEq

/-- The relational store the services read and write. -/
structure Store where
  accounts : List BankAccount
  transactions : List Transaction
  audits : List AuditLog
deriving DecidableEq

/-- BankAccount.objects.get(pk=pk): the row with the given primary key. -/
def getAccount (s : Store) (pk : Nat) : Option BankAccount :=
  s.accounts.find? (fun a => a.pk == pk)

/-- An UPDATE of an existing account row (Model.save on a loaded row). -/
def saveAccount (s : Store) (a : BankAccount) : Store :=
  { s with accounts := s.accounts.map (fun b => if b.pk == a.pk then a else b) }

/-- An INSERT of a transaction row (Transaction.objects.create). -/
def addTransaction (s : Store) (t : Transaction) : Store :=
  { s with transactions := s.transactions ++ [t] }

/-- An UPDATE of an existing transaction row (Transaction.save). -/
def saveTransaction (s : Store) (t : Transaction) : Store :=
  { s with transactions := s.transactions.map (fun u => if u.pk == t.pk then t else u) }

/-- An INSERT of an audit row (AuditLog.objects.create). -/
def addAudit (s : Store) (e : AuditLog) : Store :=
  { s with audits := s.audits ++ [e] }

/-- Sum of all account balances in the store. -/
def accountBalanceSum (s : Store) : Int :=
  (s.accounts.map (fun a => a.balance)).sum

/-- BankAccount.has_sufficient_balance. -/
def has_sufficient_balance (a : BankAccount) (amount : Int) : Bool :=
  a.balance ≥ amount

/-- BankAccount.get_daily_transfer_total: total of the sent transactions
with status completed created at or after the start of the current local
day, zero when there are none. -/
def get_daily_transfer_total (a : BankAccount) (store : Store) (todayStart : Nat) : Int :=
  ((store.transactions.filter
      (fun t => decide (t.senderPk = a.pk ∧ t.status = TxStatus.completed ∧ todayStart ≤ t.createdAt))).map
    (fun t => t.amount)).sum

/-- BankAccount.can_transfer: the pre-lock validation chain, returning the
allowed flag and the reason string. The account attributes come from the
in-memory instance; the daily total is a live query against the store. -/
def can_transfer (a : BankAccount) (store : Store) (todayStart : Nat) (amount : Int) :
    Bool × String :=
  if a.isActive = false then
    (false, "Account is not active")
  else if amount ≤ 0 then
    (false, "Transfer amount must be positive")
  else if has_sufficient_balance a amount = false then
    (false, "Insufficient balance")
  else if get_daily_transfer_total a store todayStart + amount > a.dailyTransferLimit then
    (false, "Daily transfer limit exceeded. Limit: " ++ toString a.dailyTransferLimit ++
      ", Used: " ++ toString (get_daily_transfer_total a store todayStart))
  else
    (true, "Transfer allowed")

/-- The request metadata AuditService.log_action reads (request.META). -/
structure HttpRequest where
  httpXForwardedFor : Option String
  remoteAddr : Option String
  httpUserAgent : Option String

/-- AuditService.log_action. The whole body runs inside a try/except that
swallows every exception, so the function itself never raises: it returns
the created AuditLog row or none. `createFault` injects a database error
in AuditLog.objects.create; the returned flag reports whether that error
marked the surrounding atomic block (if any) as needing rollback, which is
what Django does before log_action catches the exception. -/
def log_action (store : Store) (userPk : Option Nat) (action : String)
    (description : String) (relatedTransactionPk : Option Nat)
    (relatedAccountPk : Option Nat) (request : Option HttpRequest)
    (auditPk : Nat) (createFault : Bool) :
    Option AuditLog × Store × Bool :=
  let ipAddress : Option String :=
    match request with
    | none => none
    | some r =>
      match r.httpXForwardedFor with
      | some xff => some ((xff.splitOn ",").headD "")
      | none => r.remoteAddr
  let userAgent : Option String :=
    match request with
    | none => none
    | some r => some (r.httpUserAgent.getD "")
  if createFault then
    (none, store, true)
  else
    let entry : AuditLog :=
      { pk := auditPk, userPk := userPk, action := action, description := description,
        ipAddress := ipAddress, userAgent := userAgent,
        relatedTransactionPk := relatedTransactionPk,
        relatedAccountPk := relatedAccountPk }
    (some entry, addAudit store entry, false)

/-- Injected database faults for one transfer_money run, one flag per ORM
write the function performs. A set flag makes that write raise a database
error (which marks the surrounding atomic block as needing rollback);
`commitFault` makes the final COMMIT issued by the db_transaction.atomic
wrapper fail. -/
structure Faults where
  createFault : Bool
  senderSaveFault : Bool
  receiverSaveFault : Bool
  txnSaveFault : Bool
  auditFault : Bool
  commitFault : Bool
deriving DecidableEq

/-- The fault-free run. -/
def noFaults : Faults :=
  { createFault := false, senderSaveFault := false, receiverSaveFault := false,
    txnSaveFault := false, auditFault := false, commitFault := false }

/-- Nondeterministic inputs of one transfer_money run: the clock values and
the generated identifiers. -/
structure Env where
  todayStart : Nat
  now : Nat
  txnPk : Nat
  txnId : String
  auditPk : Nat

/-- The caller-visible result triple of transfer_money. -/
abbrev TransferResult := Bool × String × Option Transaction

/-- The full outcome of a transfer_money call: an uncaught exception from
the atomic wrapper, or the result triple together with the committed store
and the sequence of row locks acquired (pks, in acquisition order). -/
abbrev TransferOutcome := Except String (TransferResult × Store × List Nat)

/-- Exit of the db_transaction.atomic block wrapping transfer_money: if
any caught database error marked the block as needing rollback, every
staged write is discarded and the store reverts to `lockedStore`;
otherwise the staged store commits (and a commit-time database fault is
raised to the caller, past the except handlers inside the function). -/
def atomicExit (lockedStore stagedStore : Store) (needsRollback : Bool)
    (faults : Faults) (result : TransferResult) (locks : List Nat) : TransferOutcome :=
  if needsRollback then
    Except.ok (result, lockedStore, locks)
  else if faults.commitFault then
    Except.error "DatabaseError: could not commit transaction"
  else
    Except.ok (result, stagedStore, locks)

/-- The message produced when a query runs after a database error inside
the same atomic block (Django TransactionManagementError), as caught and
formatted by the outer except handler of transfer_money. -/
def transferFailedTMEMessage : String :=
  "Transfer failed: An error occurred in the current transaction. " ++
  "You cannot execute queries until the end of the atomic block."

/-- The message produced by the outer except handler when a locking SELECT
finds no row (BankAccount.DoesNotExist). -/
def transferFailedDoesNotExistMessage : String :=
  "Transfer failed: BankAccount matching query does not exist."

/-- The execution phase of TransactionService.transfer_money: the
Transaction.objects.create call and the inner try block (debit, credit,
after-snapshots, the three saves, the audit call). Returns the staged
store, whether a database fault has marked the atomic block as needing
rollback, and the result triple the function body will return. A fault at
any save poisons the block, so the inner except handler attempt to mark
the row failed itself raises TransactionManagementError, which the outer
handler turns into a generic failure triple. -/
def execution_phase (lockedStore : Store) (sender receiver : BankAccount)
    (amount : Int) (description : String) (request : Option HttpRequest)
    (env : Env) (faults : Faults) : Store × Bool × TransferResult :=
  if faults.createFault then
    (lockedStore, true, (false, "Transfer failed: database error", none))
  else
    let txn0 : Transaction :=
      { pk := env.txnPk, transactionId := env.txnId,
        senderPk := sender.pk, receiverPk := receiver.pk,
        amount := amount, description := description,
        status := TxStatus.pending, createdAt := env.now,
        completedAt := none, failureReason := none,
        senderBalanceBefore := some sender.balance,
        senderBalanceAfter := none,
        receiverBalanceBefore := some receiver.balance,
        receiverBalanceAfter := none }
    let store1 := addTransaction lockedStore txn0
    let sender1 := { sender with balance := sender.balance - amount }
    let receiver1 := { receiver with balance := receiver.balance + amount }
    let txn1 :=
      { txn0 with senderBalanceAfter := some sender1.balance,
                  receiverBalanceAfter := some receiver1.balance,
                  status := TxStatus.completed,
                  completedAt := some env.now }
    if faults.senderSaveFault then
      (store1, true, (false, transferFailedTMEMessage, none))
    else
      let store2 := saveAccount store1 sender1
      if faults.receiverSaveFault then
        (store2, true, (false, transferFailedTMEMessage, none))
      else
        let store3 := saveAccount store2 receiver1
        if faults.txnSaveFault then
          (store3, true, (false, transferFailedTMEMessage, none))
        else
          let store4 := saveTransaction store3 txn1
          let auditOut :=
            log_action store4 (some sender1.userPk) "transaction_completed"
              ("Transfer of " ++ toString amount ++ " from " ++
                sender1.accountNumber ++ " to " ++ receiver1.accountNumber)
              (some txn1.pk) none request env.auditPk faults.auditFault
          (auditOut.2.1, auditOut.2.2,
            (true, "Transfer successful! Transaction ID: " ++ env.txnId, some txn1))

/-- TransactionService.transfer_money.

`senderSnap` and `receiverSnap` are the in-memory BankAccount instances the
caller passes in (possibly stale snapshots); `preStore` is the database
state the pre-lock validation queries see; `lockedStore` is the database
state read under the row locks (in a quiescent system the two coincide).
The whole function body runs inside db_transaction.atomic and inside a
try/except returning (False, message, None) on any exception; the
execution phase after the row creation is `execution_phase` above. -/
def transfer_money (senderSnap receiverSnap : BankAccount)
    (preStore lockedStore : Store) (amount : Int) (description : String)
    (request : Option HttpRequest) (env : Env) (faults : Faults) : TransferOutcome :=
  if senderSnap.pk = receiverSnap.pk then
    atomicExit lockedStore lockedStore false faults
      (false, "Cannot transfer money to the same account", none) []
  else if amount ≤ 0 then
    atomicExit lockedStore lockedStore false faults
      (false, "Transfer amount must be positive", none) []
  else if (can_transfer senderSnap preStore env.todayStart amount).1 = false then
    atomicExit lockedStore lockedStore false faults
      (false, (can_transfer senderSnap preStore env.todayStart amount).2, none) []
  else
    match getAccount lockedStore senderSnap.pk with
    | none =>
      atomicExit lockedStore lockedStore false faults
        (false, transferFailedDoesNotExistMessage, none) []
    | some sender =>
      match getAccount lockedStore receiverSnap.pk with
      | none =>
        atomicExit lockedStore lockedStore false faults
          (false, transferFailedDoesNotExistMessage, none) [senderSnap.pk]
      | some receiver =>
        if sender.balance < amount then
          atomicExit lockedStore lockedStore false faults
            (false, "Insufficient balance", none) [senderSnap.pk, receiverSnap.pk]
        else
          atomicExit lockedStore
            (execution_phase lockedStore sender receiver amount description
              request env faults).1
            (execution_phase lockedStore sender receiver amount description
              request env faults).2.1 faults
            (execution_phase lockedStore sender receiver amount description
              request env faults).2.2
            [senderSnap.pk, receiverSnap.pk]

/-- The public attributes of the django.db.transaction module, which
services.py imports as db_transaction. It exposes the transaction control
helper objects only; the query composer Q lives in django.db.models. -/
def djangoDbTransactionAttrs : List String :=
  ["Atomic", "TransactionManagementError", "atomic", "clean_savepoints", "commit",
   "get_autocommit", "get_connection", "get_rollback", "mark_for_rollback_on_error",
   "non_atomic_requests", "on_commit", "rollback", "savepoint", "savepoint_commit",
   "savepoint_rollback", "set_autocommit", "set_rollback"]

/-- The statement dictionary TransactionService.get_account_statement is
meant to return. -/
structure AccountStatement where
  accountPk : Nat
  transactions : List Transaction
  sentTotal : Int
  receivedTotal : Int
  netChange : Int
  openingBalance : Int
  closingBalance : Int
  dateFrom : Option Nat
  dateTo : Option Nat
deriving DecidableEq

/-- TransactionService.get_account_statement. Its first expression
evaluates db_transaction.Q, an attribute lookup on the
django.db.transaction module; when the attribute is missing the lookup
raises AttributeError, which nothing in the function catches. The branch
that the lookup would guard carries out the documented computation over
completed transactions where the account is sender or receiver, ordered
by creation time and optionally bounded by the date range. -/
def get_account_statement (store : Store) (account : BankAccount)
    (dateFrom dateTo : Option Nat) : Except String AccountStatement :=
  if "Q" ∈ djangoDbTransactionAttrs then
    let base :=
      (store.transactions.filter
        (fun t => decide ((t.senderPk = account.pk ∨ t.receiverPk = account.pk) ∧
          t.status = TxStatus.completed))).mergeSort
        (fun a b => a.createdAt ≤ b.createdAt)
    let afterFrom :=
      match dateFrom with
      | none => base
      | some d => base.filter (fun t => decide (d ≤ t.createdAt))
    let txs :=
      match dateTo with
      | none => afterFrom
      | some d => afterFrom.filter (fun t => decide (t.createdAt ≤ d))
    let sentTotal :=
      ((txs.filter (fun t => t.senderPk == account.pk)).map (fun t => t.amount)).sum
    let receivedTotal :=
      ((txs.filter (fun t => t.receiverPk == account.pk)).map (fun t => t.amount)).sum
    Except.ok
      { accountPk := account.pk, transactions := txs,
        sentTotal := sentTotal, receivedTotal := receivedTotal,
        netChange := receivedTotal - sentTotal,
        openingBalance := account.balance - (receivedTotal - sentTotal),
        closingBalance := account.balance,
        dateFrom := dateFrom, dateTo := dateTo }
  else
    Except.error "AttributeError: module django.db.transaction has no attribute Q"

/-- True when the store already holds an account with the given account
number (BankAccount.objects.filter(account_number=...).exists()). -/
def account_number_exists (store : Store) (n : String) : Bool :=
  store.accounts.any (fun a => a.accountNumber == n)

/-- One candidate built by AccountService.generate_account_number: the
fixed prefix SPF, the six-digit date part, and the eight random digits. -/
def account_number_candidate (datePart suffix : String) : String :=
  "SPF" ++ datePart ++ suffix

/-- The while-True loop of AccountService.generate_account_number, run
against an explicit stream of random eight-digit suffixes: each iteration
builds a candidate and returns it unless it already exists in the store.
The source loop has no retry bound, so an exhausted stream (none) means
the loop has not returned within that many iterations. -/
def generate_account_number_loop (store : Store) (datePart : String) :
    List String → Option String
  | [] => none
  | suffix :: rest =>
    let candidate := account_number_candidate datePart suffix
    if account_number_exists store candidate then
      generate_account_number_loop store datePart rest
    else
      some candidate

/-- The success flag of a transfer outcome (false when an exception
escaped to the caller). -/
def successFlag : TransferOutcome → Bool
  | Except.ok ((b, _, _), _, _) => b
  | Except.error _ => false

/-- The committed store of a transfer outcome, when the call returned. -/
def finalStoreOf : TransferOutcome → Option Store
  | Except.ok (_, s, _) => some s
  | Except.error _ => none

/-- The sequence of account row locks a transfer outcome acquired. -/
def lockTrace : TransferOutcome → List Nat
  | Except.ok (_, _, l) => l
  | Except.error _ => []

/-- The returned transaction object of a transfer outcome, when any. -/
def returnedTransaction : TransferOutcome → Option Transaction
  | Except.ok ((_, _, t), _, _) => t
  | Except.error _ => none

/-! ## Concrete fixtures

Minor units throughout: the spec scenario account S (balance 1000.00,
daily limit 100000.00) is `acctA` with balance 100000 and limit 10000000,
and account R (balance 500.00) is `acctB`. -/

/-- Account S of the spec scenario. -/
def acctA : BankAccount :=
  { pk := 1, userPk := 1, accountNumber := "SPF25101100000001",
    balance := 100000, isActive := true, dailyTransferLimit := 10000000 }

/-- Account R of the spec scenario. -/
def acctB : BankAccount :=
  { pk := 2, userPk := 2, accountNumber := "SPF25101100000002",
    balance := 50000, isActive := true, dailyTransferLimit := 10000000 }

/-- A store holding only the two scenario accounts. -/
def baseStore : Store :=
  { accounts := [acctA, acctB], transactions := [], audits := [] }

/-- A fixed environment for the concrete runs. -/
def baseEnv : Env :=
  { todayStart := 100, now := 150, txnPk := 1,
    txnId := "TXN20251012ABCD1234", auditPk := 1 }

/-! ## Fault fixtures and concrete runs -/

/-- A run whose only database fault hits sender.save() (a storage fault in
the execution phase). -/
def senderSaveFaults : Faults := { noFaults with senderSaveFault := true }

/-- A run whose only database fault hits AuditLog.objects.create. -/
def auditFaults : Faults := { noFaults with auditFault := true }

/-- A run whose only database fault hits the final COMMIT. -/
def commitFaults : Faults := { noFaults with commitFault := true }

/-- The spec scenario transfer (S sends 200.00 to R) with a storage fault
at the sender balance write. -/
def storageFaultRun : TransferOutcome :=
  transfer_money acctA acctB baseStore baseStore 20000 "rent" none baseEnv senderSaveFaults

/-- The spec scenario transfer with a storage fault at the audit write. -/
def auditFaultRun : TransferOutcome :=
  transfer_money acctA acctB baseStore baseStore 20000 "rent" none baseEnv auditFaults

/-- The spec scenario transfer with a storage fault at the final COMMIT. -/
def commitFaultRun : TransferOutcome :=
  transfer_money acctA acctB baseStore baseStore 20000 "rent" none baseEnv commitFaults

/-- Account S with a small daily limit of 100.00. -/
def acctL : BankAccount :=
  { pk := 1, userPk := 1, accountNumber := "SPF25101100000001",
    balance := 100000, isActive := true, dailyTransferLimit := 10000 }

/-- A completed same-day transfer by account 1 that exhausts acctL's daily
limit, committed by a concurrent transfer between the pre-lock check and
the lock acquisition. -/
def concurrentTxn : Transaction :=
  { pk := 99, transactionId := "TXN20251012FFFF0001", senderPk := 1, receiverPk := 2,
    amount := 10000, description := "", status := TxStatus.completed, createdAt := 120,
    completedAt := some 120, failureReason := none,
    senderBalanceBefore := none, senderBalanceAfter := none,
    receiverBalanceBefore := none, receiverBalanceAfter := none }

/-- Database state the pre-lock validation sees: no transfers today. -/
def preStoreC3 : Store :=
  { accounts := [acctL, acctB], transactions := [], audits := [] }

/-- Database state read under the locks: the concurrent same-day transfer
has landed. -/
def lockedStoreC3 : Store :=
  { accounts := [acctL, acctB], transactions := [concurrentTxn], audits := [] }

/-- Account R, deactivated. -/
def acctBInactive : BankAccount := { acctB with isActive := false }

/-- A store in which the receiver account is inactive. -/
def storeInactiveReceiver : Store :=
  { accounts := [acctA, acctBInactive], transactions := [], audits := [] }

/-- The spec scenario transfer sent to the deactivated receiver. -/
def inactiveReceiverRun : TransferOutcome :=
  transfer_money acctA acctBInactive storeInactiveReceiver storeInactiveReceiver
    20000 "" none baseEnv noFaults

/-- An account whose number collides with every candidate the degenerate
random stream produces. -/
def collidingAccount : BankAccount :=
  { pk := 7, userPk := 7, accountNumber := "SPF25101200000000",
    balance := 0, isActive := true, dailyTransferLimit := 0 }

/-- A store already holding that colliding account number. -/
def storeC9 : Store :=
  { accounts := [collidingAccount], transactions := [], audits := [] }

/-- Whether a transfer outcome returned (rather than raised) to the
caller. -/
def isOkOutcome : TransferOutcome → Bool
  | Except.ok _ => true
  | Except.error _ => false

/-- The sender row after the witness transfer. -/
def witnessSenderAfter : BankAccount := { acctA with balance := 80000 }

/-- The receiver row after the witness transfer. -/
def witnessReceiverAfter : BankAccount := { acctB with balance := 70000 }

/-- The completed transaction row of the witness transfer. -/
def witnessTxn : Transaction :=
  { pk := 1, transactionId := "TXN20251012ABCD1234", senderPk := 1, receiverPk := 2,
    amount := 20000, description := "rent", status := TxStatus.completed,
    createdAt := 150, completedAt := some 150, failureReason := none,
    senderBalanceBefore := some 100000, senderBalanceAfter := some 80000,
    receiverBalanceBefore := some 50000, receiverBalanceAfter := some 70000 }

/-- The audit row of the witness transfer. -/
def witnessAudit : AuditLog :=
  { pk := 1, userPk := some 1, action := "transaction_completed",
    description := "Transfer of 20000 from SPF25101100000001 to SPF25101100000002",
    ipAddress := none, userAgent := none, relatedTransactionPk := some 1,
    relatedAccountPk := none }

/-- The committed store of the witness transfer. -/
def witnessStore : Store :=
  { accounts := [witnessSenderAfter, witnessReceiverAfter],
    transactions := [witnessTxn], audits := [witnessAudit] }

example :
    successFlag (transfer_money acctA acctB baseStore baseStore 20000 "rent"
      none baseEnv noFaults) = true := by decide

example :
    (finalStoreOf (transfer_money acctA acctB baseStore baseStore 20000 "rent"
      none baseEnv noFaults)).map (fun s => s.accounts.map (fun a => a.balance)) =
      some [80000, 70000] := by decide

/-! ## Lemmas about account-row lookups and updates -/

/-- A looked-up account carries the looked-up primary key. -/
theorem getAccount_pk {s : Store} {p : Nat} {b : BankAccount}
    (h : getAccount s p = some b) : b.pk = p := by
  have := List.find?_some h
  simpa using this

/-- Replacing by primary key leaves lookups of a different primary key
unchanged (list level). -/
theorem find?_replace_other (l : List BankAccount) (a : BankAccount) (p : Nat)
    (ha : a.pk ≠ p) :
    (l.map (fun b => if b.pk == a.pk then a else b)).find? (fun b => b.pk == p) =
      l.find? (fun b => b.pk == p) := by
  induction l with
  | nil => rfl
  | cons b t ih =>
    simp only [List.map_cons]
    by_cases hb : b.pk = a.pk
    · rw [if_pos (by simpa using hb)]
      rw [List.find?_cons_of_neg _ (by simpa using ha),
        List.find?_cons_of_neg _ (by simp [hb]; omega)]
      exact ih
    · rw [if_neg (by simpa using hb)]
      by_cases hbp : b.pk = p
      · rw [List.find?_cons_of_pos _ (by simpa using hbp),
          List.find?_cons_of_pos _ (by simpa using hbp)]
      · rw [List.find?_cons_of_neg _ (by simpa using hbp),
          List.find?_cons_of_neg _ (by simpa using hbp)]
        exact ih

/-- Replacing an existing row by primary key makes the lookup of that key
return the replacement (list level). -/
theorem find?_replace_self (l : List BankAccount) (a : BankAccount) (p : Nat)
    (ha : a.pk = p) (h : (l.find? (fun b => b.pk == p)).isSome) :
    (l.map (fun b => if b.pk == a.pk then a else b)).find? (fun b => b.pk == p) =
      some a := by
  induction l with
  | nil => simp at h
  | cons b t ih =>
    simp only [List.map_cons]
    by_cases hb : b.pk = a.pk
    · rw [if_pos (by simpa using hb)]
      rw [List.find?_cons_of_pos _ (by simpa using ha)]
    · rw [if_neg (by simpa using hb)]
      have hbp : b.pk ≠ p := by omega
      rw [List.find?_cons_of_neg _ (by simpa using hbp)]
      apply ih
      rwa [List.find?_cons_of_neg _ (by simpa using hbp)] at h

/-- Replacing one existing row shifts the balance total by the difference
between the new and the old balance, provided primary keys are unique
(list level). -/
theorem balance_sum_replace (l : List BankAccount) (a b : BankAccount)
    (hn : (l.map (fun x => x.pk)).Nodup)
    (hb : l.find? (fun x => x.pk == a.pk) = some b) :
    ((l.map (fun x => if x.pk == a.pk then a else x)).map (fun x => x.balance)).sum =
      (l.map (fun x => x.balance)).sum + a.balance - b.balance := by
  induction l with
  | nil => simp at hb
  | cons c t ih =>
    simp only [List.map_cons, List.nodup_cons] at hn
    by_cases hc : c.pk = a.pk
    · rw [List.find?_cons_of_pos _ (by simpa using hc)] at hb
      have hcb : c = b := by simpa using hb
      subst hcb
      simp only [List.map_cons]
      rw [if_pos (by simpa using hc)]
      have ht : t.map (fun x => if x.pk == a.pk then a else x) = t := by
        conv_rhs => rw [← List.map_id t]
        apply List.map_congr_left
        intro x hx
        have hxa : x.pk ≠ a.pk := by
          intro hxa
          refine hn.1 ?_
          rw [hc, ← hxa]
          exact List.mem_map_of_mem (fun y => y.pk) hx
        simp [hxa]
      rw [ht]
      simp only [List.map_cons, List.sum_cons]
      ring
    · rw [List.find?_cons_of_neg _ (by simpa using hc)] at hb
      simp only [List.map_cons]
      rw [if_neg (by simpa using hc)]
      simp only [List.map_cons, List.sum_cons]
      rw [ih hn.2 hb]
      ring

/-- Updating an account row with a different primary key does not change a
lookup. -/
theorem getAccount_saveAccount_other {s : Store} {a : BankAccount} {p : Nat}
    (ha : a.pk ≠ p) : getAccount (saveAccount s a) p = getAccount s p :=
  find?_replace_other s.accounts a p ha

/-- Updating an existing account row makes the lookup of its primary key
return the updated row. -/
theorem getAccount_saveAccount_self {s : Store} {a : BankAccount} {p : Nat}
    (ha : a.pk = p) (h : (getAccount s p).isSome) :
    getAccount (saveAccount s a) p = some a :=
  find?_replace_self s.accounts a p ha h

/-- The transaction insert does not touch account rows. -/
theorem getAccount_addTransaction (s : Store) (t : Transaction) (p : Nat) :
    getAccount (addTransaction s t) p = getAccount s p := rfl

/-- The transaction update does not touch account rows. -/
theorem getAccount_saveTransaction (s : Store) (t : Transaction) (p : Nat) :
    getAccount (saveTransaction s t) p = getAccount s p := rfl

/-- The audit insert does not touch account rows. -/
theorem getAccount_addAudit (s : Store) (e : AuditLog) (p : Nat) :
    getAccount (addAudit s e) p = getAccount s p := rfl

/-- Replacing rows by primary key preserves the list of primary keys. -/
theorem saveAccount_map_pk (l : List BankAccount) (a : BankAccount) :
    (l.map (fun b => if b.pk == a.pk then a else b)).map (fun b => b.pk) =
      l.map (fun b => b.pk) := by
  rw [List.map_map]
  apply List.map_congr_left
  intro x hx
  by_cases h : x.pk = a.pk
  · simp [Function.comp, h]
  · simp [Function.comp, h]

/-- Updating one existing account row shifts the balance total by exactly
the difference between the new and the old balance, provided primary keys
are unique. -/
theorem balanceSum_saveAccount {s : Store} {a b : BankAccount}
    (hn : (s.accounts.map (fun x => x.pk)).Nodup)
    (hb : getAccount s a.pk = some b) :
    accountBalanceSum (saveAccount s a) =
      accountBalanceSum s + a.balance - b.balance :=
  balance_sum_replace s.accounts a b hn hb

/-! ## Claim C1 -/

/-- Claim C1 (code bug): the spec requires a storage fault during the
execution phase to leave the Transaction persisted in status failed with
the failure reason, balances unchanged, and a generic failure returned.
Evaluating the embedded transfer at such a fault (a database error at
sender.save()) shows what the code actually does: the inner handler's
attempt to save the failed status itself raises TransactionManagementError
inside the poisoned atomic block, the outer handler returns a generic
failure, and the atomic exit rolls the whole block back, so the store
reverts to its pre-transfer state — balances unchanged and generic failure
as claimed, but no Transaction row survives at all, in particular none in
status failed. -/
theorem C1_storage_fault_rolls_back_whole_block :
    storageFaultRun =
      Except.ok ((false, transferFailedTMEMessage, none), baseStore, [1, 2]) ∧
    baseStore.transactions = [] := by
  exact ⟨rfl, rfl⟩

/-! ## Claim C7 -/

/-- Claim C7 (code bug): log_action indeed never raises — on a faulting
audit write it returns none and leaves every row untouched — but the spec
also requires an audit failure after a completed transfer to leave the
transfer intact. Evaluating the embedded transfer with a database fault at
the audit write shows the opposite: the swallowed fault has marked the
atomic block as needing rollback, so the block rolls back the completed
Transaction row and both balance updates while transfer_money still
reports success to the caller. -/
theorem C7_audit_fault_rolls_back_completed_transfer :
    log_action baseStore (some 1) "transaction_completed" "d" none none none 1 true =
      (none, baseStore, true) ∧
    successFlag auditFaultRun = true ∧
    finalStoreOf auditFaultRun = some baseStore := by
  exact ⟨rfl, rfl, rfl⟩

/-! ## Claim C2 -/

/-- Claim C2, counterexample: a transfer_money call that returns success
but whose persisted balances do not equal the recorded after snapshots.
With a database fault at the audit write, the call returns success and a
transaction object recording sender_balance_after = 800.00, yet the
rollback triggered by the swallowed audit fault leaves the persisted
sender balance at 1000.00. -/
theorem C2_counterexample_success_without_persistence :
    successFlag auditFaultRun = true ∧
    (returnedTransaction auditFaultRun).map (fun t => t.senderBalanceAfter) =
      some (some 80000) ∧
    (finalStoreOf auditFaultRun).bind (fun s => (getAccount s 1).map (fun a => a.balance)) =
      some 100000 := by
  exact ⟨rfl, rfl, rfl⟩

/-! ## Claim C3 -/

/-- Claim C3, counterexample: the daily-limit check is not re-validated
against the locked state. The pre-lock store shows no same-day transfers,
but under the locks a concurrent completed transfer has exhausted the
sender's daily limit; the freshly read state fails the daily-limit check,
yet transfer_money proceeds and succeeds because the only post-lock
re-validation is the balance comparison. -/
theorem C3_counterexample_stale_daily_limit :
    get_daily_transfer_total acctL lockedStoreC3 baseEnv.todayStart + 5000 >
      acctL.dailyTransferLimit ∧
    successFlag (transfer_money acctL acctB preStoreC3 lockedStoreC3 5000 ""
      none baseEnv noFaults) = true := by
  exact ⟨by decide, rfl⟩

/-! ## Claim C4 -/

/-- Claim C4, counterexample: an inactive receiver is not rejected.
transfer_money performs no check on the receiver's active flag, so the
transfer to a deactivated account succeeds, credits it, and creates a
Transaction record — contradicting the claim that it fails before any
mutation with an account-inactive error. -/
theorem C4_counterexample_inactive_receiver_credited :
    acctBInactive.isActive = false ∧
    successFlag inactiveReceiverRun = true ∧
    (finalStoreOf inactiveReceiverRun).bind
      (fun s => (getAccount s 2).map (fun a => a.balance)) = some 70000 ∧
    (finalStoreOf inactiveReceiverRun).map (fun s => s.transactions.length) = some 1 := by
  exact ⟨rfl, rfl, rfl, rfl⟩

/-! ## Claim C10 -/

/-- Claim C10, counterexample: transfer_money does not convert every
exception into a result triple. A database fault at the final COMMIT is
raised by the db_transaction.atomic wrapper after the function body has
returned, past both except handlers, so the caller sees an exception
instead of a (success, message, transaction) triple. -/
theorem C10_counterexample_commit_fault_raises :
    commitFaultRun = Except.error "DatabaseError: could not commit transaction" := by
  exact rfl

/-! ## Claim C6 -/

/-- Claim C6, counterexample: the locks are not acquired in ascending
account-identifier order. The embedded lock trace records the locking
SELECTs in program order: a transfer from account 2 to account 1 locks
2 before 1, while the opposite direction locks 1 before 2 — the order
follows the sender/receiver roles, not the identifiers, so two opposite
transfers over the same pair acquire the locks in opposite orders. -/
theorem C6_counterexample_lock_order_follows_roles :
    lockTrace (transfer_money acctB acctA baseStore baseStore 10000 ""
      none baseEnv noFaults) = [2, 1] ∧
    lockTrace (transfer_money acctA acctB baseStore baseStore 10000 ""
      none baseEnv noFaults) = [1, 2] ∧
    ¬ (2 : Nat) ≤ 1 := by
  exact ⟨rfl, rfl, by decide⟩

/-- The transaction insert does not change the balance total. -/
theorem accountBalanceSum_addTransaction (s : Store) (t : Transaction) :
    accountBalanceSum (addTransaction s t) = accountBalanceSum s := rfl

/-- The transaction update does not change the balance total. -/
theorem accountBalanceSum_saveTransaction (s : Store) (t : Transaction) :
    accountBalanceSum (saveTransaction s t) = accountBalanceSum s := rfl

/-- The audit insert does not change the balance total. -/
theorem accountBalanceSum_addAudit (s : Store) (e : AuditLog) :
    accountBalanceSum (addAudit s e) = accountBalanceSum s := rfl

/-- Updating an account row preserves uniqueness of primary keys. -/
theorem saveAccount_nodup (s : Store) (a : BankAccount)
    (hn : (s.accounts.map (fun x => x.pk)).Nodup) :
    ((saveAccount s a).accounts.map (fun x => x.pk)).Nodup := by
  have h : (saveAccount s a).accounts.map (fun x => x.pk) =
      s.accounts.map (fun x => x.pk) := saveAccount_map_pk s.accounts a
  rw [h]
  exact hn

/-! ## Claim C8 -/

/-- Claim C8 (code bug): get_account_statement is meant to be a pure read
returning the statement aggregates, but its filter references Q on the
django.db.transaction module, which has no such attribute, so every call
raises AttributeError before reading anything. -/
theorem C8_statement_always_raises_attribute_error
    (store : Store) (account : BankAccount) (dateFrom dateTo : Option Nat) :
    get_account_statement store account dateFrom dateTo =
      Except.error "AttributeError: module django.db.transaction has no attribute Q" := by
  have h : ¬ ("Q" ∈ djangoDbTransactionAttrs) := by decide
  unfold get_account_statement
  rw [if_neg h]

/-! ## Claim C9 -/

/-- Under total collision the generation loop never returns, whatever the
iteration count. -/
theorem generate_loop_collides_forever (n : Nat) :
    generate_account_number_loop storeC9 "251012" (List.replicate n "00000000") = none := by
  induction n with
  | zero => rfl
  | succ k ih =>
    rw [List.replicate_succ]
    simp only [generate_account_number_loop]
    rw [if_pos (by decide)]
    exact ih

/-- Claim C9, counterexample: the generation loop is not bounded by a
maximum retry count. Against a store that already holds the only account
number the degenerate random stream can produce, no number of iterations
makes the loop return — the source while-True loop runs forever, so the
claimed retry bound does not exist. -/
theorem C9_counterexample_no_retry_bound :
    ¬ ∃ n : Nat, (generate_account_number_loop storeC9 "251012"
      (List.replicate n "00000000")).isSome = true := by
  rintro ⟨n, h⟩
  rw [generate_loop_collides_forever n] at h
  simp at h

/-- Claim C9 (amended): the generation loop checks every candidate against
the store and, whenever it returns, the returned number has the
prefix-date-suffix shape and is not already present in the store; but the
loop is unbounded rather than bounded by a maximum retry count. -/
theorem C9_returned_number_is_fresh (store : Store) (datePart : String)
    (suffixes : List String) (x : String)
    (h : generate_account_number_loop store datePart suffixes = some x) :
    account_number_exists store x = false ∧
    ∃ s ∈ suffixes, x = account_number_candidate datePart s := by
  induction suffixes with
  | nil => simp [generate_account_number_loop] at h
  | cons a rest ih =>
    simp only [generate_account_number_loop] at h
    by_cases hc : account_number_exists store (account_number_candidate datePart a) = true
    · rw [if_pos hc] at h
      obtain ⟨h1, s, hs, hx⟩ := ih h
      exact ⟨h1, s, List.mem_cons_of_mem a hs, hx⟩
    · rw [if_neg hc] at h
      have hx : x = account_number_candidate datePart a := by
        have := h
        simp only [Option.some.injEq] at this
        exact this.symm
      subst hx
      refine ⟨?_, a, List.mem_cons_self a rest, rfl⟩
      simpa using hc

/-- Claim C9, witness: a concrete run of the loop returns a fresh number
of the documented shape. -/
theorem C9_witness :
    account_number_exists baseStore "SPF25101212345678" = false ∧
    ∃ s ∈ ["12345678"], ("SPF25101212345678" : String) =
      account_number_candidate "251012" s :=
  C9_returned_number_is_fresh baseStore "251012" ["12345678"] "SPF25101212345678" (by decide)

/-! ## Claim C6, amended theorem -/

/-- Claim C6 (amended): transfer_money acquires the row locks in
sender-then-receiver program order — every run locks nothing, only the
sender row, or the sender row followed by the receiver row. The order is
determined by the argument roles, not by the account identifiers, so it is
not the claimed deterministic ascending-identifier order (see the
counterexample for two opposite-direction runs acquiring opposite
orders). -/
theorem C6_locks_in_sender_receiver_order (sSnap rSnap : BankAccount)
    (preStore lockedStore : Store) (amount : Int) (description : String)
    (request : Option HttpRequest) (env : Env) (faults : Faults) :
    lockTrace (transfer_money sSnap rSnap preStore lockedStore amount description
      request env faults) = [] ∨
    lockTrace (transfer_money sSnap rSnap preStore lockedStore amount description
      request env faults) = [sSnap.pk] ∨
    lockTrace (transfer_money sSnap rSnap preStore lockedStore amount description
      request env faults) = [sSnap.pk, rSnap.pk] := by
  unfold transfer_money atomicExit
  repeat' split
  all_goals simp [lockTrace]

/-- The result triple of the execution phase is either a failure carrying
no transaction or a success carrying the completed transaction. -/
theorem execution_phase_result_shape (ls : Store) (sender receiver : BankAccount)
    (amount : Int) (description : String) (request : Option HttpRequest)
    (env : Env) (faults : Faults) :
    ((execution_phase ls sender receiver amount description request env faults).2.2.1 = false ∧
      (execution_phase ls sender receiver amount description request env faults).2.2.2.2 = none) ∨
    ((execution_phase ls sender receiver amount description request env faults).2.2.1 = true ∧
      ∃ t, (execution_phase ls sender receiver amount description request env faults).2.2.2.2 =
          some t ∧ t.status = TxStatus.completed) := by
  simp only [execution_phase]
  repeat' split
  all_goals simp

/-- Helper for the interface-shape theorem: any failure triple through the
atomic exit keeps the triple shape when the commit does not fail. -/
theorem C10_branch_fail (ls ss : Store) (nr : Bool) (f : Faults)
    (hc : f.commitFault = false) (m : String) (locks : List Nat) :
    isOkOutcome (atomicExit ls ss nr f (false, m, none) locks) = true ∧
    (successFlag (atomicExit ls ss nr f (false, m, none) locks) = true →
      ∃ t, returnedTransaction (atomicExit ls ss nr f (false, m, none) locks) = some t ∧
        t.status = TxStatus.completed) ∧
    (successFlag (atomicExit ls ss nr f (false, m, none) locks) = false →
      returnedTransaction (atomicExit ls ss nr f (false, m, none) locks) = none) := by
  unfold atomicExit
  repeat' split
  all_goals simp_all [isOkOutcome, successFlag, returnedTransaction]

/-- Helper for the interface-shape theorem: the execution-phase result
through the atomic exit keeps the triple shape when the commit does not
fail. -/
theorem C10_branch_exec (ls : Store) (sender receiver : BankAccount) (amount : Int)
    (description : String) (request : Option HttpRequest) (env : Env) (f : Faults)
    (hc : f.commitFault = false) (locks : List Nat) :
    isOkOutcome (atomicExit ls
      (execution_phase ls sender receiver amount description request env f).1
      (execution_phase ls sender receiver amount description request env f).2.1 f
      (execution_phase ls sender receiver amount description request env f).2.2 locks) = true ∧
    (successFlag (atomicExit ls
      (execution_phase ls sender receiver amount description request env f).1
      (execution_phase ls sender receiver amount description request env f).2.1 f
      (execution_phase ls sender receiver amount description request env f).2.2 locks) = true →
      ∃ t, returnedTransaction (atomicExit ls
        (execution_phase ls sender receiver amount description request env f).1
        (execution_phase ls sender receiver amount description request env f).2.1 f
        (execution_phase ls sender receiver amount description request env f).2.2 locks) =
          some t ∧ t.status = TxStatus.completed) ∧
    (successFlag (atomicExit ls
      (execution_phase ls sender receiver amount description request env f).1
      (execution_phase ls sender receiver amount description request env f).2.1 f
      (execution_phase ls sender receiver amount description request env f).2.2 locks) = false →
      returnedTransaction (atomicExit ls
        (execution_phase ls sender receiver amount description request env f).1
        (execution_phase ls sender receiver amount description request env f).2.1 f
        (execution_phase ls sender receiver amount description request env f).2.2 locks) = none) := by
  rcases execution_phase_result_shape ls sender receiver amount description request env f with
    ⟨h1, h2⟩ | ⟨h1, t, h2, h3⟩ <;>
    unfold atomicExit <;>
    repeat' split
  all_goals
    simp_all [isOkOutcome, successFlag, returnedTransaction]

/-- With no rollback mark and no commit fault, the atomic exit commits the
staged store and returns the result unchanged. -/
theorem atomicExit_commit (ls ss : Store) (f : Faults) (hc : f.commitFault = false)
    (r : TransferResult) (locks : List Nat) :
    atomicExit ls ss false f r locks = Except.ok (r, ss, locks) := by
  unfold atomicExit
  rw [if_neg (by simp), if_neg (by simp [hc])]

/-- A fault-free execution phase does not mark the block for rollback and
reports success. -/
theorem execution_phase_noFaults (ls : Store) (sender receiver : BankAccount)
    (amount : Int) (description : String) (request : Option HttpRequest) (env : Env) :
    (execution_phase ls sender receiver amount description request env noFaults).2.1 = false ∧
    (execution_phase ls sender receiver amount description request env noFaults).2.2.1 = true := by
  simp [execution_phase, log_action, noFaults]

/-! ## Claim C10, amended theorem -/

/-- Claim C10 (amended): as long as the final COMMIT itself does not fail,
transfer_money is total at its public interface: it returns a
(success, message, transaction) triple for every input and fault
combination, a successful result always carries the completed Transaction
object, and a failed result carries none. Only a commit-time database
fault, raised by the db_transaction.atomic wrapper outside the function
body, escapes as an exception (see the counterexample). -/
theorem C10_returns_triple_when_commit_succeeds (sSnap rSnap : BankAccount)
    (preStore lockedStore : Store) (amount : Int) (description : String)
    (request : Option HttpRequest) (env : Env) (faults : Faults)
    (hcommit : faults.commitFault = false) :
    isOkOutcome (transfer_money sSnap rSnap preStore lockedStore amount description
      request env faults) = true ∧
    (successFlag (transfer_money sSnap rSnap preStore lockedStore amount description
      request env faults) = true →
      ∃ t, returnedTransaction (transfer_money sSnap rSnap preStore lockedStore amount
        description request env faults) = some t ∧ t.status = TxStatus.completed) ∧
    (successFlag (transfer_money sSnap rSnap preStore lockedStore amount description
      request env faults) = false →
      returnedTransaction (transfer_money sSnap rSnap preStore lockedStore amount
        description request env faults) = none) := by
  unfold transfer_money
  repeat' split
  all_goals first
    | exact C10_branch_fail _ _ _ _ hcommit _ _
    | exact C10_branch_exec _ _ _ _ _ _ _ _ hcommit _

/-! ## Claim C3, amended theorem -/

/-- Claim C3 (amended): after acquiring the locks, transfer_money
re-validates only the sender-balance check against the freshly read rows:
a locked balance below the amount fails the transfer with no mutation,
while a sufficient locked balance lets the fault-free transfer succeed
with no hypothesis whatsoever on the locked state's daily-transfer total —
the daily-limit check is computed once, against the pre-lock store, and is
not re-validated inside the locked context (see the counterexample). -/
theorem C3_only_balance_is_rechecked_after_locking (sSnap rSnap : BankAccount)
    (preStore lockedStore : Store) (amount : Int) (description : String)
    (request : Option HttpRequest) (env : Env) (sender receiver : BankAccount)
    (hpk : sSnap.pk ≠ rSnap.pk) (hamt : ¬ amount ≤ 0)
    (hpre : (can_transfer sSnap preStore env.todayStart amount).1 = true)
    (hs : getAccount lockedStore sSnap.pk = some sender)
    (hr : getAccount lockedStore rSnap.pk = some receiver) :
    (∀ faults : Faults, faults.commitFault = false → sender.balance < amount →
      transfer_money sSnap rSnap preStore lockedStore amount description request
          env faults =
        Except.ok ((false, "Insufficient balance", none), lockedStore,
          [sSnap.pk, rSnap.pk])) ∧
    (¬ sender.balance < amount →
      successFlag (transfer_money sSnap rSnap preStore lockedStore amount description
        request env noFaults) = true) := by
  constructor
  · intro faults hcommit hbal
    unfold transfer_money
    rw [if_neg hpk, if_neg hamt, if_neg (by simp [hpre]), hs, hr]
    dsimp only
    rw [if_pos hbal]
    exact atomicExit_commit _ _ _ hcommit _ _
  · intro hbal
    unfold transfer_money
    rw [if_neg hpk, if_neg hamt, if_neg (by simp [hpre]), hs, hr]
    dsimp only
    rw [if_neg hbal]
    have hex := execution_phase_noFaults lockedStore sender receiver amount description
      request env
    rw [hex.1, atomicExit_commit _ _ _ rfl _ _]
    exact hex.2

/-- Claim C3, witness: at a concrete input with a sufficient locked
balance the fault-free transfer succeeds. -/
theorem C3_witness :
    successFlag (transfer_money acctA acctB baseStore baseStore 20000 "w"
      none baseEnv noFaults) = true :=
  (C3_only_balance_is_rechecked_after_locking acctA acctB baseStore baseStore 20000 "w"
    none baseEnv acctA acctB (by decide) (by decide) (by decide) rfl rfl).2 (by decide)

/-! ## Claim C4, amended theorem -/

/-- Claim C4 (amended): every sender-side validation failure — same
account, non-positive amount, any can_transfer failure (inactive sender,
insufficient balance, daily limit), and a missing sender or receiver row
at lock time — returns a failure triple with no transaction object and
leaves the store exactly as it was, so no mutation precedes validation.
The receiver's active flag, however, is never checked (see the
counterexample: an inactive receiver is credited). A missing receiver
fails only through the generic DoesNotExist exception path, not through a
typed account-not-found error. -/
theorem C4_validation_failures_leave_store_unchanged (sSnap rSnap : BankAccount)
    (preStore lockedStore : Store) (amount : Int) (description : String)
    (request : Option HttpRequest) (env : Env) (faults : Faults)
    (hcommit : faults.commitFault = false) :
    (sSnap.pk = rSnap.pk →
      transfer_money sSnap rSnap preStore lockedStore amount description request
          env faults =
        Except.ok ((false, "Cannot transfer money to the same account", none),
          lockedStore, [])) ∧
    (sSnap.pk ≠ rSnap.pk → amount ≤ 0 →
      transfer_money sSnap rSnap preStore lockedStore amount description request
          env faults =
        Except.ok ((false, "Transfer amount must be positive", none), lockedStore, [])) ∧
    (sSnap.pk ≠ rSnap.pk → ¬ amount ≤ 0 →
      (can_transfer sSnap preStore env.todayStart amount).1 = false →
      transfer_money sSnap rSnap preStore lockedStore amount description request
          env faults =
        Except.ok ((false, (can_transfer sSnap preStore env.todayStart amount).2, none),
          lockedStore, [])) ∧
    (sSnap.pk ≠ rSnap.pk → ¬ amount ≤ 0 →
      ¬ (can_transfer sSnap preStore env.todayStart amount).1 = false →
      getAccount lockedStore sSnap.pk = none →
      transfer_money sSnap rSnap preStore lockedStore amount description request
          env faults =
        Except.ok ((false, transferFailedDoesNotExistMessage, none), lockedStore, [])) ∧
    (∀ sender : BankAccount, sSnap.pk ≠ rSnap.pk → ¬ amount ≤ 0 →
      ¬ (can_transfer sSnap preStore env.todayStart amount).1 = false →
      getAccount lockedStore sSnap.pk = some sender →
      getAccount lockedStore rSnap.pk = none →
      transfer_money sSnap rSnap preStore lockedStore amount description request
          env faults =
        Except.ok ((false, transferFailedDoesNotExistMessage, none), lockedStore,
          [sSnap.pk])) := by
  refine ⟨?_, ?_, ?_, ?_, ?_⟩
  · intro h1
    unfold transfer_money
    rw [if_pos h1]
    exact atomicExit_commit _ _ _ hcommit _ _
  · intro h1 h2
    unfold transfer_money
    rw [if_neg h1, if_pos h2]
    exact atomicExit_commit _ _ _ hcommit _ _
  · intro h1 h2 h3
    unfold transfer_money
    rw [if_neg h1, if_neg h2, if_pos h3]
    exact atomicExit_commit _ _ _ hcommit _ _
  · intro h1 h2 h3 h4
    unfold transfer_money
    rw [if_neg h1, if_neg h2, if_neg h3, h4]
    exact atomicExit_commit _ _ _ hcommit _ _
  · intro sender h1 h2 h3 h4 h5
    unfold transfer_money
    rw [if_neg h1, if_neg h2, if_neg h3, h4]
    dsimp only
    rw [h5]
    exact atomicExit_commit _ _ _ hcommit _ _

/-- Claim C4, witness: a same-account transfer fails with the documented
message and an unchanged store. -/
theorem C4_witness :
    transfer_money acctA acctA baseStore baseStore 100 "" none baseEnv noFaults =
      Except.ok ((false, "Cannot transfer money to the same account", none),
        baseStore, []) :=
  (C4_validation_failures_leave_store_unchanged acctA acctA baseStore baseStore 100 ""
    none baseEnv noFaults rfl).1 rfl

/-! ## Claim C5 -/

/-- Claim C5: with the sender active, the amount positive and the balance
sufficient, a transfer whose amount pushes the same-day completed sent
total S over the daily limit is rejected with the daily-limit error and
leaves the store unchanged, while S + amount within the limit passes
can_transfer; and S is exactly the sum of the amounts of the completed
transactions with this account as sender created at or after the start of
the current day. -/
theorem C5_daily_limit_enforcement (a rSnap : BankAccount)
    (store lockedStore : Store) (amount : Int) (description : String)
    (request : Option HttpRequest) (env : Env) (faults : Faults)
    (hactive : a.isActive = true) (hamt : 0 < amount)
    (hbal : has_sufficient_balance a amount = true)
    (hpk : a.pk ≠ rSnap.pk) (hcommit : faults.commitFault = false) :
    (get_daily_transfer_total a store env.todayStart + amount > a.dailyTransferLimit →
      can_transfer a store env.todayStart amount =
        (false, "Daily transfer limit exceeded. Limit: " ++
          toString a.dailyTransferLimit ++ ", Used: " ++
          toString (get_daily_transfer_total a store env.todayStart)) ∧
      transfer_money a rSnap store lockedStore amount description request env faults =
        Except.ok ((false, "Daily transfer limit exceeded. Limit: " ++
          toString a.dailyTransferLimit ++ ", Used: " ++
          toString (get_daily_transfer_total a store env.todayStart), none),
          lockedStore, [])) ∧
    (get_daily_transfer_total a store env.todayStart + amount ≤ a.dailyTransferLimit →
      can_transfer a store env.todayStart amount = (true, "Transfer allowed")) ∧
    get_daily_transfer_total a store env.todayStart =
      ((store.transactions.filter (fun t =>
        decide (t.senderPk = a.pk ∧ t.status = TxStatus.completed ∧
          env.todayStart ≤ t.createdAt))).map (fun t => t.amount)).sum := by
  refine ⟨?_, ?_, rfl⟩
  · intro hover
    have hcan : can_transfer a store env.todayStart amount =
        (false, "Daily transfer limit exceeded. Limit: " ++
          toString a.dailyTransferLimit ++ ", Used: " ++
          toString (get_daily_transfer_total a store env.todayStart)) := by
      unfold can_transfer
      rw [if_neg (by simp [hactive]), if_neg (by omega), if_neg (by simp [hbal]),
        if_pos hover]
    refine ⟨hcan, ?_⟩
    unfold transfer_money
    rw [if_neg hpk, if_neg (by omega), hcan, if_pos rfl]
    exact atomicExit_commit _ _ _ hcommit _ _
  · intro hunder
    unfold can_transfer
    rw [if_neg (by simp [hactive]), if_neg (by omega), if_neg (by simp [hbal]),
      if_neg (by omega)]

/-- Claim C5, witness: a concrete over-limit transfer is rejected with the
daily-limit message and an unchanged store. -/
theorem C5_witness :
    can_transfer acctL lockedStoreC3 baseEnv.todayStart 5000 =
      (false, "Daily transfer limit exceeded. Limit: " ++
        toString acctL.dailyTransferLimit ++ ", Used: " ++
        toString (get_daily_transfer_total acctL lockedStoreC3 baseEnv.todayStart)) ∧
    transfer_money acctL acctB lockedStoreC3 lockedStoreC3 5000 "" none baseEnv
        noFaults =
      Except.ok ((false, "Daily transfer limit exceeded. Limit: " ++
        toString acctL.dailyTransferLimit ++ ", Used: " ++
        toString (get_daily_transfer_total acctL lockedStoreC3 baseEnv.todayStart), none),
        lockedStoreC3, []) :=
  (C5_daily_limit_enforcement acctL acctB lockedStoreC3 lockedStoreC3 5000 "" none
    baseEnv noFaults rfl (by decide) (by decide) (by decide) rfl).1 (by decide)

/-! ## Claim C2, supporting lemmas and theorem -/

/-- Inversion for the atomic exit: a returned outcome carries the result
triple and lock list unchanged, and the final store is the pre-block store
on rollback or the staged store on commit. -/
theorem atomicExit_ok_result {ls ss : Store} {nr : Bool} {f : Faults}
    {r p : TransferResult} {st : Store} {locks lk : List Nat}
    (h : atomicExit ls ss nr f r locks = Except.ok (p, st, lk)) :
    p = r ∧ lk = locks ∧ ((nr = true ∧ st = ls) ∨ (nr = false ∧ st = ss)) := by
  unfold atomicExit at h
  by_cases h1 : nr = true
  · rw [if_pos h1] at h
    simp only [Except.ok.injEq, Prod.mk.injEq] at h
    exact ⟨h.1.symm, h.2.2.symm, Or.inl ⟨h1, h.2.1.symm⟩⟩
  · rw [if_neg h1] at h
    by_cases h2 : f.commitFault = true
    · rw [if_pos h2] at h
      simp at h
    · rw [if_neg h2] at h
      simp only [Except.ok.injEq, Prod.mk.injEq] at h
      exact ⟨h.1.symm, h.2.2.symm, Or.inr ⟨by simpa using h1, h.2.1.symm⟩⟩

/-- After the two account saves of the execution phase, looking up the
first saved row (by a key different from the second save) yields it. -/
theorem getAccount_after_two_saves_sender (ls : Store) (t0 : Transaction)
    (s1 r1 : BankAccount) (p : Nat) (hs1 : s1.pk = p) (hr1 : r1.pk ≠ p)
    (hsome : (getAccount ls p).isSome) :
    getAccount (saveAccount (saveAccount (addTransaction ls t0) s1) r1) p = some s1 := by
  rw [getAccount_saveAccount_other hr1]
  exact getAccount_saveAccount_self hs1 hsome

/-- After the two account saves of the execution phase, looking up the
second saved row yields it. -/
theorem getAccount_after_two_saves_receiver (ls : Store) (t0 : Transaction)
    (s1 r1 : BankAccount) (p : Nat) (hr1 : r1.pk = p) (hs1 : s1.pk ≠ p)
    (hsome : (getAccount ls p).isSome) :
    getAccount (saveAccount (saveAccount (addTransaction ls t0) s1) r1) p = some r1 := by
  apply getAccount_saveAccount_self hr1
  rw [getAccount_saveAccount_other hs1]
  exact hsome

/-- The two account saves of the execution phase shift the balance total
by the two balance differences. -/
theorem balanceSum_after_two_saves (ls : Store) (t0 : Transaction)
    (s1 r1 sender receiver : BankAccount)
    (hnodup : (ls.accounts.map (fun x => x.pk)).Nodup)
    (hs : getAccount ls s1.pk = some sender)
    (hr : getAccount ls r1.pk = some receiver)
    (hne : s1.pk ≠ r1.pk) :
    accountBalanceSum (saveAccount (saveAccount (addTransaction ls t0) s1) r1) =
      accountBalanceSum ls + s1.balance - sender.balance + r1.balance -
        receiver.balance := by
  have hb2 : getAccount (saveAccount (addTransaction ls t0) s1) r1.pk = some receiver := by
    rw [getAccount_saveAccount_other hne]
    exact hr
  have hn2 : ((saveAccount (addTransaction ls t0) s1).accounts.map
      (fun x => x.pk)).Nodup := saveAccount_nodup (addTransaction ls t0) s1 hnodup
  rw [balanceSum_saveAccount hn2 hb2,
    @balanceSum_saveAccount (addTransaction ls t0) s1 sender hnodup hs,
    accountBalanceSum_addTransaction]

/-- The conservation core: when the execution phase reports success (so no
database fault hit the create or the three saves) and the audit write does
not fault, the block is not marked for rollback and the staged store holds
the debited sender, the credited receiver, the completed transaction with
its four snapshots, and an unchanged balance total. -/
theorem execution_phase_conservation (ls : Store) (sender receiver : BankAccount)
    (amount : Int) (description : String) (request : Option HttpRequest) (env : Env)
    (faults : Faults) (haudit : faults.auditFault = false)
    (hnodup : (ls.accounts.map (fun x => x.pk)).Nodup)
    (hsender : getAccount ls sender.pk = some sender)
    (hreceiver : getAccount ls receiver.pk = some receiver)
    (hne : sender.pk ≠ receiver.pk)
    (hflag : (execution_phase ls sender receiver amount description request env
      faults).2.2.1 = true) :
    (execution_phase ls sender receiver amount description request env faults).2.1 =
      false ∧
    ∃ t, (execution_phase ls sender receiver amount description request env
        faults).2.2.2.2 = some t ∧
      t.status = TxStatus.completed ∧
      t.amount = amount ∧
      t.senderPk = sender.pk ∧
      t.receiverPk = receiver.pk ∧
      t.senderBalanceBefore = some sender.balance ∧
      t.senderBalanceAfter = some (sender.balance - amount) ∧
      t.receiverBalanceBefore = some receiver.balance ∧
      t.receiverBalanceAfter = some (receiver.balance + amount) ∧
      (∃ s2, getAccount (execution_phase ls sender receiver amount description request
          env faults).1 sender.pk = some s2 ∧ s2.balance = sender.balance - amount) ∧
      (∃ r2, getAccount (execution_phase ls sender receiver amount description request
          env faults).1 receiver.pk = some r2 ∧ r2.balance = receiver.balance + amount) ∧
      accountBalanceSum (execution_phase ls sender receiver amount description request
        env faults).1 = accountBalanceSum ls := by
  have hcf : faults.createFault = false := by
    by_contra hc
    simp only [Bool.not_eq_false] at hc
    simp [execution_phase, hc] at hflag
  have hssf : faults.senderSaveFault = false := by
    by_contra hc
    simp only [Bool.not_eq_false] at hc
    simp [execution_phase, hcf, hc] at hflag
  have hrsf : faults.receiverSaveFault = false := by
    by_contra hc
    simp only [Bool.not_eq_false] at hc
    simp [execution_phase, hcf, hssf, hc] at hflag
  have htsf : faults.txnSaveFault = false := by
    by_contra hc
    simp only [Bool.not_eq_false] at hc
    simp [execution_phase, hcf, hssf, hrsf, hc] at hflag
  simp only [execution_phase, hcf, hssf, hrsf, htsf, haudit, log_action,
    Bool.false_eq_true, if_false]
  constructor
  · simp
  refine ⟨_, rfl, ?hstat, ?hamt, ?hsp, ?hrp, ?hsbb, ?hsba, ?hrbb, ?hrba, ?hS, ?hR, ?hsum⟩
  case hstat => rfl
  case hamt => rfl
  case hsp => rfl
  case hrp => rfl
  case hsbb => rfl
  case hsba => rfl
  case hrbb => rfl
  case hrba => rfl
  case hS =>
    refine ⟨{ sender with balance := sender.balance - amount }, ?_, rfl⟩
    rw [getAccount_addAudit, getAccount_saveTransaction]
    exact getAccount_after_two_saves_sender _ _ _ _ _ rfl (Ne.symm hne)
      (by rw [hsender]; rfl)
  case hR =>
    refine ⟨{ receiver with balance := receiver.balance + amount }, ?_, rfl⟩
    rw [getAccount_addAudit, getAccount_saveTransaction]
    exact getAccount_after_two_saves_receiver _ _ _ _ _ rfl hne
      (by rw [hreceiver]; rfl)
  case hsum =>
    rw [accountBalanceSum_addAudit, accountBalanceSum_saveTransaction,
      balanceSum_after_two_saves ls _ { sender with balance := sender.balance - amount }
        { receiver with balance := receiver.balance + amount } sender receiver hnodup
        hsender hreceiver hne]
    dsimp only
    ring

/-- Claim C2 (amended): for every transfer_money call that returns success
and whose audit write did not suffer a storage fault, conservation holds:
the after snapshots are before minus/plus the amount, the persisted sender
and receiver balances equal the after snapshots, and the total of all
account balances is unchanged (uniqueness of account primary keys, a
database invariant, is assumed). Without the audit proviso the claim fails
(see the counterexample): an audit-write fault rolls the whole block back
while success is still returned. -/
theorem C2_conservation_on_success (sSnap rSnap : BankAccount)
    (preStore lockedStore : Store) (amount : Int) (description : String)
    (request : Option HttpRequest) (env : Env) (faults : Faults)
    (msg : String) (t : Transaction) (final : Store) (locks : List Nat)
    (hnodup : (lockedStore.accounts.map (fun x => x.pk)).Nodup)
    (haudit : faults.auditFault = false)
    (h : transfer_money sSnap rSnap preStore lockedStore amount description request
      env faults = Except.ok ((true, msg, some t), final, locks)) :
    t.status = TxStatus.completed ∧
    t.amount = amount ∧
    (∃ sb, t.senderBalanceBefore = some sb ∧ t.senderBalanceAfter = some (sb - amount)) ∧
    (∃ rb, t.receiverBalanceBefore = some rb ∧
      t.receiverBalanceAfter = some (rb + amount)) ∧
    (∃ s2, getAccount final t.senderPk = some s2 ∧
      some s2.balance = t.senderBalanceAfter) ∧
    (∃ r2, getAccount final t.receiverPk = some r2 ∧
      some r2.balance = t.receiverBalanceAfter) ∧
    accountBalanceSum final = accountBalanceSum lockedStore := by
  unfold transfer_money at h
  by_cases h1 : sSnap.pk = rSnap.pk
  · rw [if_pos h1] at h
    obtain ⟨hp, -, -⟩ := atomicExit_ok_result h
    simp at hp
  · rw [if_neg h1] at h
    by_cases h2 : amount ≤ 0
    · rw [if_pos h2] at h
      obtain ⟨hp, -, -⟩ := atomicExit_ok_result h
      simp at hp
    · rw [if_neg h2] at h
      by_cases h3 : (can_transfer sSnap preStore env.todayStart amount).1 = false
      · rw [if_pos h3] at h
        obtain ⟨hp, -, -⟩ := atomicExit_ok_result h
        simp at hp
      · rw [if_neg h3] at h
        rcases hs : getAccount lockedStore sSnap.pk with _ | sender
        · rw [hs] at h
          dsimp only at h
          obtain ⟨hp, -, -⟩ := atomicExit_ok_result h
          simp at hp
        · rw [hs] at h
          dsimp only at h
          rcases hr : getAccount lockedStore rSnap.pk with _ | receiver
          · rw [hr] at h
            dsimp only at h
            obtain ⟨hp, -, -⟩ := atomicExit_ok_result h
            simp at hp
          · rw [hr] at h
            dsimp only at h
            by_cases h4 : sender.balance < amount
            · rw [if_pos h4] at h
              obtain ⟨hp, -, -⟩ := atomicExit_ok_result h
              simp at hp
            · rw [if_neg h4] at h
              obtain ⟨hp, hlk, hst⟩ := atomicExit_ok_result h
              have hspk : sender.pk = sSnap.pk := getAccount_pk hs
              have hrpk : receiver.pk = rSnap.pk := getAccount_pk hr
              have hne : sender.pk ≠ receiver.pk := by
                rw [hspk, hrpk]
                exact h1
              have hsender : getAccount lockedStore sender.pk = some sender := by
                rw [hspk]
                exact hs
              have hreceiver : getAccount lockedStore receiver.pk = some receiver := by
                rw [hrpk]
                exact hr
              have hflag : (execution_phase lockedStore sender receiver amount
                  description request env faults).2.2.1 = true := by
                rw [← hp]
              obtain ⟨hnr, t0, ht0, hstat, hamt, hsp, hrp, hsbb, hsba, hrbb, hrba,
                  hS2, hR2, hsum⟩ :=
                execution_phase_conservation lockedStore sender receiver amount
                  description request env faults haudit hnodup hsender hreceiver hne hflag
              have htt : t = t0 := by
                have hopt : some t = some t0 := by
                  rw [← ht0, ← hp]
                exact Option.some.inj hopt
              subst htt
              have hfin : final = (execution_phase lockedStore sender receiver amount
                  description request env faults).1 := by
                rcases hst with ⟨ha, -⟩ | ⟨-, hb⟩
                · rw [hnr] at ha
                  simp at ha
                · exact hb
              obtain ⟨s2, hs2, hs2b⟩ := hS2
              obtain ⟨r2, hr2, hr2b⟩ := hR2
              refine ⟨hstat, hamt, ⟨sender.balance, hsbb, hsba⟩,
                ⟨receiver.balance, hrbb, hrba⟩, ?_, ?_, ?_⟩
              · refine ⟨s2, ?_, ?_⟩
                · rw [hfin, hsp]
                  exact hs2
                · rw [hsba, hs2b]
              · refine ⟨r2, ?_, ?_⟩
                · rw [hfin, hrp]
                  exact hr2
                · rw [hrba, hr2b]
              · rw [hfin]
                exact hsum

/-- Claim C2, witness: the conservation theorem applied to the concrete
spec scenario run (S sends 200.00 to R). -/
theorem C2_witness :
    witnessTxn.status = TxStatus.completed ∧
    witnessTxn.amount = 20000 ∧
    (∃ sb, witnessTxn.senderBalanceBefore = some sb ∧
      witnessTxn.senderBalanceAfter = some (sb - 20000)) ∧
    (∃ rb, witnessTxn.receiverBalanceBefore = some rb ∧
      witnessTxn.receiverBalanceAfter = some (rb + 20000)) ∧
    (∃ s2, getAccount witnessStore witnessTxn.senderPk = some s2 ∧
      some s2.balance = witnessTxn.senderBalanceAfter) ∧
    (∃ r2, getAccount witnessStore witnessTxn.receiverPk = some r2 ∧
      some r2.balance = witnessTxn.receiverBalanceAfter) ∧
    accountBalanceSum witnessStore = accountBalanceSum baseStore :=
  C2_conservation_on_success acctA acctB baseStore baseStore 20000 "rent" none baseEnv
    noFaults "Transfer successful! Transaction ID: TXN20251012ABCD1234" witnessTxn
    witnessStore [1, 2] (by decide) rfl (by rfl)

/-- Claim C10, witness: the interface-shape theorem applied to the
concrete fault-free spec scenario run. -/
theorem C10_witness :
    isOkOutcome (transfer_money acctA acctB baseStore baseStore 20000 "rent"
      none baseEnv noFaults) = true ∧
    (successFlag (transfer_money acctA acctB baseStore baseStore 20000 "rent"
      none baseEnv noFaults) = true →
      ∃ t, returnedTransaction (transfer_money acctA acctB baseStore baseStore 20000
        "rent" none baseEnv noFaults) = some t ∧ t.status = TxStatus.completed) ∧
    (successFlag (transfer_money acctA acctB baseStore baseStore 20000 "rent"
      none baseEnv noFaults) = false →
      returnedTransaction (transfer_money acctA acctB baseStore baseStore 20000
        "rent" none baseEnv noFaults) = none) :=
  C10_returns_triple_when_commit_succeeds acctA acctB baseStore baseStore 20000 "rent"
    none baseEnv noFaults rfl

end SparksFinance
